import Mathlib

/-!
Verification of the kolam pattern generator backend (`main.py` and
`backend.py`).  The geometry (pattern generation) is embedded over `ℝ`
with exact trigonometric functions; the renderer pipeline
(`generate_kolam_base64`) is embedded as a function of an explicit
failure/randomness oracle, threading the number of open matplotlib
figures through the computation so that resource-release claims can be
stated.
-/

set_option maxHeartbeats 1000000
set_option linter.unusedVariables false

namespace Kolam

/-- `np.linspace(0, 4*np.pi, N)` sample `i`: `4π·i/(N-1)`. -/
noncomputable def tSample (N i : ℕ) : ℝ := 4 * Real.pi * i / ((N - 1 : ℕ) : ℝ)

/-- Euclidean distance of a point from the origin. -/
noncomputable def radius (p : ℝ × ℝ) : ℝ := Real.sqrt (p.1 ^ 2 + p.2 ^ 2)

/-- `np.random.randint(low, high)` driven by a seed `r`: a value in
`[low, high)`; numpy raises `ValueError` when `low >= high`, modelled
as `none`. -/
def randint (low high r : ℕ) : Option ℕ :=
  if low < high then some (low + r % (high - low)) else none

/-! ## main.py: `KolamDraw` -/

namespace Main

/-- `complexity = min(ND / 10, 1.5)` (main.py line 46). -/
noncomputable def complexity (ND : ℕ) : ℝ := min ((ND : ℝ) / 10) 1.5

/-- Sample count `max(ND*12, 100)` (main.py line 47). -/
def numSamples (ND : ℕ) : ℕ := max (ND * 12) 100

/-- `KolamDraw._diamond_pattern` (main.py line 66). -/
noncomputable def diamond_pattern (t c : ℝ) : ℝ × ℝ :=
  (Real.cos t + c * 0.5 * Real.cos (3 * t), Real.sin t + c * 0.5 * Real.sin (3 * t))

/-- `KolamDraw._fish_pattern` (main.py line 69). -/
noncomputable def fish_pattern (t c : ℝ) : ℝ × ℝ :=
  (Real.cos t * (1 + c * 0.4 * Real.cos (5 * t)), Real.sin t * (1 + c * 0.4 * Real.sin (5 * t)))

/-- `KolamDraw._waves_pattern` (main.py line 72). -/
noncomputable def waves_pattern (t c : ℝ) : ℝ × ℝ :=
  (t / (2 + c) + Real.cos t, Real.sin t + c * 0.3 * Real.sin (7 * t))

/-- `KolamDraw._corners_pattern` (main.py line 75): decay envelope `exp(-t/(8+c*2))`. -/
noncomputable def corners_pattern (t c : ℝ) : ℝ × ℝ :=
  (Real.cos t * Real.exp (-t / (8 + c * 2)), Real.sin t * Real.exp (-t / (8 + c * 2)))

/-- `KolamDraw._fractal_pattern` (main.py line 79). -/
noncomputable def fractal_pattern (t c : ℝ) : ℝ × ℝ :=
  (Real.cos t + c * 0.4 * Real.cos (7 * t), Real.sin t + c * 0.4 * Real.sin (5 * t))

/-- `KolamDraw._organic_pattern` (main.py line 82). -/
noncomputable def organic_pattern (t c : ℝ) : ℝ × ℝ :=
  (Real.cos t + c * 0.5 * Real.sin (3 * t), Real.sin t + c * 0.5 * Real.cos (3 * t))

/-- The dictionary lookup `patterns.get(self.boundary_type, patterns['diamond'])`
(main.py lines 49-58): each of the six keys selects its formula, any other
string falls back to diamond. -/
noncomputable def familyPattern (b : String) (t c : ℝ) : ℝ × ℝ :=
  if b = "diamond" then diamond_pattern t c
  else if b = "fish" then fish_pattern t c
  else if b = "waves" then waves_pattern t c
  else if b = "corners" then corners_pattern t c
  else if b = "fractal" then fractal_pattern t c
  else if b = "organic" then organic_pattern t c
  else diamond_pattern t c

/-- The `KolamDraw` object: grid size and boundary family (main.py lines 37-42).
The constructor sets `boundary_type = 'diamond'`; `set_boundary` overwrites it. -/
structure KolamDraw where
  ND : ℕ
  boundary_type : String

/-- `KolamDraw.__init__` (main.py line 37). -/
def KolamDraw.init (ND : ℕ) : KolamDraw := ⟨ND, "diamond"⟩

/-- `KolamDraw.set_boundary` (main.py line 41). -/
def KolamDraw.set_boundary (k : KolamDraw) (b : String) : KolamDraw :=
  { k with boundary_type := b }

/-- The point at parameter sample `i` of the selected family. -/
noncomputable def samplePoint (k : KolamDraw) (i : ℕ) : ℝ × ℝ :=
  familyPattern k.boundary_type (tSample (numSamples k.ND) i) (complexity k.ND)

/-- `KolamDraw.generate_pattern` (main.py lines 44-64): sample the family
formula over `linspace(0, 4π, max(ND*12,100))`, then close the pattern by
appending `x[0], y[0]` (the sample count is at least 100, so the sample
list is nonempty and its first element is `samplePoint k 0`). -/
noncomputable def KolamDraw.generate_pattern (k : KolamDraw) : List (ℝ × ℝ) :=
  (List.range (numSamples k.ND)).map (samplePoint k) ++ [samplePoint k 0]

/-- The curve computed inside `generate_kolam_base64` (main.py lines 103-105):
`KD = KolamDraw(ND); KD.set_boundary(boundary_type); KD.generate_pattern()`.
`sigmaref` is a parameter of `generate_kolam_base64` (line 85) that never
flows into the pattern. -/
noncomputable def pattern_of_request (ND : ℕ) (sigmaref : ℝ) (b : String) : List (ℝ × ℝ) :=
  ((KolamDraw.init ND).set_boundary b).generate_pattern

end Main

/-! ## backend.py: `KolamDraw` -/

namespace Backend

/-- Sample count `max(ND*10, 80)` (backend.py line 73). -/
def numSamples (ND : ℕ) : ℕ := max (ND * 10) 80

/-- The `if/elif/else` chain of backend.py lines 75-92: fixed harmonic
amplitudes, and the final `else` branch is the organic formula. -/
noncomputable def familyPattern (b : String) (t : ℝ) : ℝ × ℝ :=
  if b = "diamond" then
    (Real.cos t + 0.5 * Real.cos (3 * t), Real.sin t + 0.5 * Real.sin (3 * t))
  else if b = "fish" then
    (Real.cos t * (1 + 0.4 * Real.cos (5 * t)), Real.sin t * (1 + 0.4 * Real.sin (5 * t)))
  else if b = "waves" then
    (t / 4 + Real.cos t, Real.sin t + 0.3 * Real.sin (7 * t))
  else if b = "corners" then
    (Real.cos t * Real.exp (-t / 12), Real.sin t * Real.exp (-t / 12))
  else if b = "fractal" then
    (Real.cos t + 0.4 * Real.cos (7 * t), Real.sin t + 0.4 * Real.sin (5 * t))
  else
    (Real.cos t + 0.5 * Real.sin (3 * t), Real.sin t + 0.5 * Real.cos (3 * t))

/-- The `KolamDraw` object of backend.py (lines 63-69). -/
structure KolamDraw where
  ND : ℕ
  boundary_type : String

/-- `KolamDraw.__init__` (backend.py line 64). -/
def KolamDraw.init (ND : ℕ) : KolamDraw := ⟨ND, "diamond"⟩

/-- `KolamDraw.set_boundary` (backend.py line 68). -/
def KolamDraw.set_boundary (k : KolamDraw) (b : String) : KolamDraw :=
  { k with boundary_type := b }

/-- The point at parameter sample `i`. -/
noncomputable def samplePoint (k : KolamDraw) (i : ℕ) : ℝ × ℝ :=
  familyPattern k.boundary_type (tSample (numSamples k.ND) i)

/-- `KolamDraw.generate_pattern` (backend.py lines 71-94): sample the family
formula over `linspace(0, 4π, max(ND*10,80))`.  No closing point is appended. -/
noncomputable def KolamDraw.generate_pattern (k : KolamDraw) : List (ℝ × ℝ) :=
  (List.range (numSamples k.ND)).map (samplePoint k)

/-- The curve computed inside backend.py's `generate_kolam_base64`
(lines 110-112); `sigmaref` (line 96) never flows into the pattern. -/
noncomputable def pattern_of_request (ND : ℕ) (sigmaref : ℝ) (b : String) : List (ℝ × ℝ) :=
  ((KolamDraw.init ND).set_boundary b).generate_pattern

end Backend

/-! ## The renderer pipeline `generate_kolam_base64`

Both files wrap the figure-creation / draw / encode / close / path-count
sequence in a single `try ... except Exception` block.  Failure of the
external steps (matplotlib figure creation, drawing, `savefig`-encoding)
is driven by an explicit oracle; the pseudo-random sources
(`np.random.random()` and `np.random.randint`) are oracle inputs as well.
The model threads the number of currently-open matplotlib figures, so
that the release discipline (`plt.close(fig)`) is visible in the result. -/

/-- Outcome dictionary of `generate_kolam_base64`: either the success
dictionary (`success: True` with image, path count, one-stroke flag) or
the failure dictionary (`success: False` with an error message). -/
inductive KolamResult where
  | ok (image : String) (path_count : ℕ) (is_one_stroke : Bool)
  | err (error : String)
deriving DecidableEq

/-- The `'success'` field of the returned dictionary. -/
def KolamResult.success : KolamResult → Bool
  | .ok _ _ _ => true
  | .err _ => false

/-- Failure/randomness oracle for one invocation of the pipeline:
which external step raises, the base64 payload that the PNG encoder
would produce, the value of `np.random.random()`, and the seed of
`np.random.randint`. -/
structure Oracle where
  figureFails : Bool
  drawFails : Bool
  encodeFails : Bool
  png : String
  u : ℚ
  r : ℕ

namespace Main

/-- Body of the `try` block of main.py `generate_kolam_base64`
(lines 86-159), as (outcome, number of matplotlib figures still open).
Steps in source order: create figure (line 108), plot (line 112),
savefig/encode (line 134), `plt.close(fig)` (line 139), then the
path-count draw (lines 144-147: `1 if random() < 0.7 else 2` when
`one_stroke`, else `randint(2, min(ND//3 + 2, 6))`), then the success
dictionary (lines 151-159).  An exception in a step aborts the body
with the figures open at that moment. -/
def tryBody (ND : ℕ) (one_stroke : Bool) (o : Oracle) :
    Except String (String × ℕ × Bool) × ℕ :=
  if o.figureFails then (.error "figure creation failed", 0)
  else if o.drawFails then (.error "draw failed", 1)
  else if o.encodeFails then (.error "savefig failed", 1)
  else
    match (if one_stroke then some (if o.u < 0.7 then 1 else 2)
           else randint 2 (min (ND / 3 + 2) 6) o.r) with
    | some pc => (.ok ("data:image/png;base64," ++ o.png, pc, pc == 1), 0)
    | none => (.error "low is greater than or equal to high", 0)

/-- main.py `generate_kolam_base64` (lines 85-168): run the `try` body;
the `except Exception` handler (lines 161-168) converts any raised
exception into `{'success': False, 'error': str(e)}` without touching
the figures that are still open.  Returns the result dictionary and the
number of figures left open. -/
def generate_kolam_base64 (ND : ℕ) (sigmaref : ℚ) (boundary_type theme : String)
    (one_stroke : Bool) (o : Oracle) : KolamResult × ℕ :=
  match tryBody ND one_stroke o with
  | (.ok (img, pc, os), n) => (.ok img pc os, n)
  | (.error e, n) => (.err e, n)

end Main

namespace Backend

/-- Body of the `try` block of backend.py `generate_kolam_base64`
(lines 97-145): create figure (line 115), plot (line 118),
savefig/encode (line 130), `plt.close(fig)` (line 133), then
`path_count = 1 if one_stroke else np.random.randint(2, 5)` (line 136)
and the success dictionary (lines 138-145). -/
def tryBody (one_stroke : Bool) (o : Oracle) :
    Except String (String × ℕ × Bool) × ℕ :=
  if o.figureFails then (.error "figure creation failed", 0)
  else if o.drawFails then (.error "draw failed", 1)
  else if o.encodeFails then (.error "savefig failed", 1)
  else
    match (if one_stroke then some 1 else randint 2 5 o.r) with
    | some pc => (.ok ("data:image/png;base64," ++ o.png, pc, pc == 1), 0)
    | none => (.error "low is greater than or equal to high", 0)

/-- backend.py `generate_kolam_base64` (lines 96-149) with its
`except Exception` handler (lines 147-149). -/
def generate_kolam_base64 (ND : ℕ) (sigmaref : ℚ) (boundary_type theme : String)
    (one_stroke : Bool) (o : Oracle) : KolamResult × ℕ :=
  match tryBody one_stroke o with
  | (.ok (img, pc, os), n) => (.ok img pc os, n)
  | (.error e, n) => (.err e, n)

end Backend

/-- An oracle on which no external step fails: the encoder yields the
payload `"PNG"`, `np.random.random()` yields `1/2`, the `randint` seed
is `0`. -/
def okOracle : Oracle := ⟨false, false, false, "PNG", 1 / 2, 0⟩

/-- An oracle on which `plt.savefig` (the encode step) raises. -/
def encodeFailOracle : Oracle := ⟨false, false, true, "PNG", 1 / 2, 0⟩

/-! ## Helper lemmas -/

theorem getD_range_map {α : Type} (f : ℕ → α) {N i : ℕ} (h : i < N) (d : α) :
    ((List.range N).map f).getD i d = f i := by
  rw [List.getD_eq_getElem?_getD]
  simp [List.getElem?_range h]

theorem head?_range_map {α : Type} (f : ℕ → α) {N : ℕ} (h : 0 < N) :
    ((List.range N).map f).head? = some (f 0) := by
  obtain ⟨m, rfl⟩ := Nat.exists_eq_succ_of_ne_zero h.ne'
  simp [List.range_succ_eq_map]

theorem getLast?_range_map {α : Type} (f : ℕ → α) {N : ℕ} (h : 0 < N) :
    ((List.range N).map f).getLast? = some (f (N - 1)) := by
  rw [List.getLast?_eq_getElem?]
  simp [List.getElem?_range (by omega : N - 1 < N)]

theorem getD_append_left {α : Type} (l1 l2 : List α) (d : α) {i : ℕ}
    (h : i < l1.length) : (l1 ++ l2).getD i d = l1.getD i d := by
  rw [List.getD_eq_getElem?_getD, List.getElem?_append, if_pos h,
    List.getD_eq_getElem?_getD]

theorem tSample_zero (N : ℕ) : tSample N 0 = 0 := by
  simp [tSample]

theorem tSample_last {N : ℕ} (h : 2 ≤ N) : tSample N (N - 1) = 4 * Real.pi := by
  have hD : ((N - 1 : ℕ) : ℝ) ≠ 0 := by
    have h1 : 1 ≤ N - 1 := by omega
    exact_mod_cast (by omega : N - 1 ≠ 0)
  rw [tSample, mul_div_assoc, div_self hD, mul_one]

theorem tSample_strictMono {N : ℕ} (h : 2 ≤ N) {i j : ℕ} (hij : i < j) :
    tSample N i < tSample N j := by
  have hD : (0 : ℝ) < ((N - 1 : ℕ) : ℝ) := by
    have h1 : 1 ≤ N - 1 := by omega
    exact_mod_cast h1
  have hnum : 4 * Real.pi * (i : ℝ) < 4 * Real.pi * (j : ℝ) := by
    have hc : (i : ℝ) < j := by exact_mod_cast hij
    have h4 : (0 : ℝ) < 4 * Real.pi := by positivity
    exact mul_lt_mul_of_pos_left hc h4
  exact div_lt_div_of_pos_right hnum hD

theorem tSample_nonneg (N i : ℕ) : 0 ≤ tSample N i := by
  unfold tSample
  positivity

theorem radius_cos_sin_mul (t e : ℝ) (he : 0 ≤ e) :
    radius (Real.cos t * e, Real.sin t * e) = e := by
  rw [radius]
  rw [show (Real.cos t * e) ^ 2 + (Real.sin t * e) ^ 2
      = (Real.cos t ^ 2 + Real.sin t ^ 2) * e ^ 2 by ring,
    Real.cos_sq_add_sin_sq, one_mul, Real.sqrt_sq he]

theorem cos_four_pi : Real.cos (4 * Real.pi) = 1 := by
  rw [show (4 : ℝ) * Real.pi = 2 * Real.pi + 2 * Real.pi by ring,
    Real.cos_add_two_pi, Real.cos_two_pi]

theorem main_numSamples_pos (ND : ℕ) : 0 < Main.numSamples ND := by
  simp [Main.numSamples]

theorem backend_numSamples_pos (ND : ℕ) : 0 < Backend.numSamples ND := by
  simp [Backend.numSamples]

/-- When `b` is none of the six family keys, main.py's dictionary
lookup returns the diamond formula. -/
theorem main_familyPattern_fallback {b : String} (h1 : b ≠ "diamond")
    (h2 : b ≠ "fish") (h3 : b ≠ "waves") (h4 : b ≠ "corners")
    (h5 : b ≠ "fractal") (h6 : b ≠ "organic") (t c : ℝ) :
    Main.familyPattern b t c = Main.familyPattern "diamond" t c := by
  simp [Main.familyPattern, h1, h2, h3, h4, h5, h6]

/-- When `b` is none of the first five family keys, backend.py's
`if/elif` chain lands in the `else` (organic) branch. -/
theorem backend_familyPattern_fallback {b : String} (h1 : b ≠ "diamond")
    (h2 : b ≠ "fish") (h3 : b ≠ "waves") (h4 : b ≠ "corners")
    (h5 : b ≠ "fractal") (t : ℝ) :
    Backend.familyPattern b t = Backend.familyPattern "organic" t := by
  simp [Backend.familyPattern, h1, h2, h3, h4, h5]

/-! ## Claim C1 -/

/-- Claim C1 (amended): for every grid size and family string, main.py's
`generate_pattern` returns a non-empty curve whose first point equals its
last point, with at least `max(ND*12, 100)` points; backend.py's
`generate_pattern` returns a non-empty curve with at least
`max(ND*10, 80)` points, but appends no closing point (its first point
need not equal its last, see the counterexample). -/
theorem C1_generate_pattern_nonempty_closed_length (ND : ℕ) (b : String) :
    (Main.KolamDraw.generate_pattern ⟨ND, b⟩ ≠ [] ∧
     (Main.KolamDraw.generate_pattern ⟨ND, b⟩).head? =
       (Main.KolamDraw.generate_pattern ⟨ND, b⟩).getLast? ∧
     max (ND * 12) 100 ≤ (Main.KolamDraw.generate_pattern ⟨ND, b⟩).length) ∧
    (Backend.KolamDraw.generate_pattern ⟨ND, b⟩ ≠ [] ∧
     max (ND * 10) 80 ≤ (Backend.KolamDraw.generate_pattern ⟨ND, b⟩).length) := by
  refine ⟨⟨by simp [Main.KolamDraw.generate_pattern], ?_, ?_⟩, ?_, ?_⟩
  · simp only [Main.KolamDraw.generate_pattern]
    rw [List.getLast?_concat]
    rw [List.head?_append_of_ne_nil _ (by
      intro hnil
      have hlen := congrArg List.length hnil
      simp [Main.numSamples] at hlen)]
    exact head?_range_map _ (main_numSamples_pos ND)
  · simp [Main.KolamDraw.generate_pattern, Main.numSamples]
  · intro hnil
    have hlen := congrArg List.length hnil
    simp [Backend.KolamDraw.generate_pattern, Backend.numSamples] at hlen
  · simp [Backend.KolamDraw.generate_pattern, Backend.numSamples]

/-- Claim C1 counterexample: backend.py's waves curve at grid size 5 is
not closed — its first point is `(1, 0)` but its last point has
x-coordinate `π + 1` (the `t/4` drift term does not return). -/
theorem C1_counterexample_backend_waves_not_closed :
    (Backend.KolamDraw.generate_pattern ⟨5, "waves"⟩).head? ≠
      (Backend.KolamDraw.generate_pattern ⟨5, "waves"⟩).getLast? := by
  intro h
  have hN : Backend.numSamples 5 = 80 := by norm_num [Backend.numSamples]
  rw [Backend.KolamDraw.generate_pattern,
    head?_range_map _ (backend_numSamples_pos 5),
    getLast?_range_map _ (backend_numSamples_pos 5)] at h
  have hp := Option.some.inj h
  have hx := congrArg Prod.fst hp
  have h79 : tSample (Backend.numSamples 5) (Backend.numSamples 5 - 1)
      = 4 * Real.pi := by
    rw [hN]; exact tSample_last (by norm_num)
  simp only [Backend.samplePoint, Backend.familyPattern, String.reduceEq,
    reduceIte] at hx
  norm_num [tSample_zero, h79, cos_four_pi] at hx
  have hπ := Real.pi_pos
  linarith

/-! ## Claim C3 -/

/-- Claim C3 (amended): an unrecognized family string does not fail;
main.py falls back to the diamond family's curve, while backend.py falls
back to the organic family's curve. -/
theorem C3_unrecognized_family_fallback (ND : ℕ) (b : String)
    (hb : b ∉ ["diamond", "fish", "waves", "corners", "fractal", "organic"]) :
    Main.KolamDraw.generate_pattern ⟨ND, b⟩ =
      Main.KolamDraw.generate_pattern ⟨ND, "diamond"⟩ ∧
    Backend.KolamDraw.generate_pattern ⟨ND, b⟩ =
      Backend.KolamDraw.generate_pattern ⟨ND, "organic"⟩ := by
  simp only [List.mem_cons, List.not_mem_nil, or_false, not_or] at hb
  obtain ⟨h1, h2, h3, h4, h5, h6⟩ := hb
  constructor
  · have hf : Main.samplePoint ⟨ND, b⟩ = Main.samplePoint ⟨ND, "diamond"⟩ := by
      funext i
      exact main_familyPattern_fallback h1 h2 h3 h4 h5 h6 _ _
    simp only [Main.KolamDraw.generate_pattern, hf]
  · have hf : Backend.samplePoint ⟨ND, b⟩ = Backend.samplePoint ⟨ND, "organic"⟩ := by
      funext i
      exact backend_familyPattern_fallback h1 h2 h3 h4 h5 _
    simp only [Backend.KolamDraw.generate_pattern, hf]

/-- Claim C3 witness: the unrecognized family `"swirl"` at grid size 7. -/
theorem C3_witness :
    ("swirl" ∉ ["diamond", "fish", "waves", "corners", "fractal", "organic"]) ∧
    (Main.KolamDraw.generate_pattern ⟨7, "swirl"⟩ =
       Main.KolamDraw.generate_pattern ⟨7, "diamond"⟩ ∧
     Backend.KolamDraw.generate_pattern ⟨7, "swirl"⟩ =
       Backend.KolamDraw.generate_pattern ⟨7, "organic"⟩) :=
  ⟨by decide, C3_unrecognized_family_fallback 7 "swirl" (by decide)⟩

/-! ## Claim C2 -/

/-- The head of main.py's curve is the sample at `t = 0`. -/
theorem main_pattern_head (ND : ℕ) (s : ℝ) (b : String) :
    (Main.pattern_of_request ND s b).head? = some (Main.samplePoint ⟨ND, b⟩ 0) := by
  simp only [Main.pattern_of_request, Main.KolamDraw.init, Main.KolamDraw.set_boundary,
    Main.KolamDraw.generate_pattern]
  rw [List.head?_append_of_ne_nil _ (by
    intro hnil
    have hlen := congrArg List.length hnil
    simp [Main.numSamples] at hlen)]
  exact head?_range_map _ (main_numSamples_pos ND)

/-- At `t = 0` the diamond sample of main.py at grid size 5 is
`(1 + min(5/10, 1.5)·0.5, 0) = (5/4, 0)`. -/
theorem main_diamond_head_value :
    Main.samplePoint ⟨5, "diamond"⟩ 0 = (5 / 4, 0) := by
  simp only [Main.samplePoint, Main.familyPattern, String.reduceEq, reduceIte,
    Main.diamond_pattern, tSample_zero]
  have hc : Main.complexity 5 = 1 / 2 := by
    rw [Main.complexity, min_eq_left (by norm_num)]
    norm_num
  rw [hc]
  norm_num

/-- Claim C2 (amended): `complexityBias` (`sigmaref`) is never used by the
pattern generator — the curve is identical for every value of it — and at
`complexityBias = 0` the curve does not collapse to the unit circle: the
secondary-harmonic amplitude scales with `min(gridSize/10, 1.5)` instead,
so at grid size 5 the diamond curve starts at distance `5/4` from the
origin, a deviation of `1/4`. -/
theorem C2_deviation_independent_of_complexity_bias (ND : ℕ) (s : ℝ) (b : String) :
    Main.pattern_of_request ND s b = Main.pattern_of_request ND 0 b ∧
    Backend.pattern_of_request ND s b = Backend.pattern_of_request ND 0 b ∧
    ∃ p, (Main.pattern_of_request 5 s "diamond").head? = some p ∧
      |radius p - 1| = 1 / 4 := by
  refine ⟨rfl, rfl, (5 / 4, 0), main_pattern_head 5 s "diamond" ▸ by
    rw [main_diamond_head_value], ?_⟩
  have hr : radius (5 / 4, 0) = 5 / 4 := by
    rw [radius, show ((5 : ℝ) / 4) ^ 2 + (0 : ℝ) ^ 2 = (5 / 4) ^ 2 by norm_num,
      Real.sqrt_sq (by norm_num)]
  rw [hr]
  norm_num

/-- Claim C2 counterexample: at `complexityBias = 0` (grid size 5, diamond)
the curve's first point lies at distance `5/4` from the origin — a
deviation of `1/4` from the unit circle, not within a small tolerance. -/
theorem C2_counterexample_quarter_deviation :
    (Main.pattern_of_request 5 0 "diamond").head? = some ((5 / 4 : ℝ), (0 : ℝ)) ∧
    |radius ((5 / 4 : ℝ), (0 : ℝ)) - 1| = 1 / 4 := by
  constructor
  · rw [main_pattern_head 5 0 "diamond", main_diamond_head_value]
  · rw [radius, show ((5 : ℝ) / 4) ^ 2 + (0 : ℝ) ^ 2 = (5 / 4) ^ 2 by norm_num,
      Real.sqrt_sq (by norm_num)]
    norm_num

/-! ## Claim C10 -/

/-- Claim C10: the curve passed to the renderer depends only on the grid
size and the boundary family; `sigmaref` (complexityBias) is accepted but
never used, so two calls differing only in `sigmaref` produce identical
curves (and, randomness oracle fixed, identical results) in both files. -/
theorem C10_curve_independent_of_sigmaref (ND : ℕ) (s1 s2 : ℝ) (q1 q2 : ℚ)
    (b theme : String) (one_stroke : Bool) (o : Oracle) :
    Main.pattern_of_request ND s1 b = Main.pattern_of_request ND s2 b ∧
    Backend.pattern_of_request ND s1 b = Backend.pattern_of_request ND s2 b ∧
    Main.generate_kolam_base64 ND q1 b theme one_stroke o =
      Main.generate_kolam_base64 ND q2 b theme one_stroke o ∧
    Backend.generate_kolam_base64 ND q1 b theme one_stroke o =
      Backend.generate_kolam_base64 ND q2 b theme one_stroke o :=
  ⟨rfl, rfl, rfl, rfl⟩

/-! ## Claim C8 -/

/-- The radius of main.py's corners sample is the decay envelope
`exp(-t/(8 + complexity*2))`. -/
theorem main_corners_radius (ND k : ℕ) :
    radius (Main.samplePoint ⟨ND, "corners"⟩ k) =
      Real.exp (-(tSample (Main.numSamples ND) k) / (8 + Main.complexity ND * 2)) := by
  simp only [Main.samplePoint, Main.familyPattern, String.reduceEq, reduceIte,
    Main.corners_pattern]
  exact radius_cos_sin_mul _ _ (Real.exp_nonneg _)

/-- The radius of backend.py's corners sample is `exp(-t/12)`. -/
theorem backend_corners_radius (ND k : ℕ) :
    radius (Backend.samplePoint ⟨ND, "corners"⟩ k) =
      Real.exp (-(tSample (Backend.numSamples ND) k) / 12) := by
  simp only [Backend.samplePoint, Backend.familyPattern, String.reduceEq, reduceIte]
  exact radius_cos_sin_mul _ _ (Real.exp_nonneg _)

theorem main_complexity_nonneg (ND : ℕ) : 0 ≤ Main.complexity ND :=
  le_min (by positivity) (by norm_num)

/-- Claim C8 (amended): for the corners family the radius strictly
decreases as the sample index advances — in backend.py across the entire
returned sequence, and in main.py across all samples except the final
appended closing point (which, per the counterexample, jumps back to the
first point's radius). -/
theorem C8_corners_radius_strict_decay (ND i j : ℕ) (hij : i < j) :
    (j < Main.numSamples ND →
      radius ((Main.KolamDraw.generate_pattern ⟨ND, "corners"⟩).getD j (0, 0)) <
        radius ((Main.KolamDraw.generate_pattern ⟨ND, "corners"⟩).getD i (0, 0))) ∧
    (j < Backend.numSamples ND →
      radius ((Backend.KolamDraw.generate_pattern ⟨ND, "corners"⟩).getD j (0, 0)) <
        radius ((Backend.KolamDraw.generate_pattern ⟨ND, "corners"⟩).getD i (0, 0))) := by
  constructor
  · intro hj
    have hi : i < Main.numSamples ND := lt_trans hij hj
    simp only [Main.KolamDraw.generate_pattern]
    rw [getD_append_left _ _ _ (by simpa using hj),
      getD_append_left _ _ _ (by simpa using hi),
      getD_range_map _ hj, getD_range_map _ hi,
      main_corners_radius, main_corners_radius]
    have hτ : (0 : ℝ) < 8 + Main.complexity ND * 2 := by
      have := main_complexity_nonneg ND
      linarith
    have ht := tSample_strictMono
      (le_trans (by norm_num) (le_max_right (ND * 12) 100)) hij
    exact Real.exp_lt_exp.mpr (div_lt_div_of_pos_right (neg_lt_neg ht) hτ)
  · intro hj
    have hi : i < Backend.numSamples ND := lt_trans hij hj
    simp only [Backend.KolamDraw.generate_pattern]
    rw [getD_range_map _ hj, getD_range_map _ hi,
      backend_corners_radius, backend_corners_radius]
    have ht := tSample_strictMono
      (le_trans (by norm_num) (le_max_right (ND * 10) 80)) hij
    exact Real.exp_lt_exp.mpr
      (div_lt_div_of_pos_right (neg_lt_neg ht) (by norm_num))

/-- Claim C8 witness: grid size 5, samples 0 and 1, in both files. -/
theorem C8_witness :
    0 < 1 ∧ 1 < Main.numSamples 5 ∧ 1 < Backend.numSamples 5 ∧
    radius ((Main.KolamDraw.generate_pattern ⟨5, "corners"⟩).getD 1 (0, 0)) <
      radius ((Main.KolamDraw.generate_pattern ⟨5, "corners"⟩).getD 0 (0, 0)) ∧
    radius ((Backend.KolamDraw.generate_pattern ⟨5, "corners"⟩).getD 1 (0, 0)) <
      radius ((Backend.KolamDraw.generate_pattern ⟨5, "corners"⟩).getD 0 (0, 0)) :=
  ⟨by norm_num, by norm_num [Main.numSamples], by norm_num [Backend.numSamples],
    (C8_corners_radius_strict_decay 5 0 1 (by norm_num)).1
      (by norm_num [Main.numSamples]),
    (C8_corners_radius_strict_decay 5 0 1 (by norm_num)).2
      (by norm_num [Backend.numSamples])⟩

/-- Claim C8 counterexample: in main.py (grid size 5) the curve has 101
points; the radius at index 99 (the last sample, `exp(-4π/9) < 1`) is
strictly below the radius at index 100 (the appended closing point, back
at radius 1) — so the radius does not strictly decrease across the
entire returned sequence. -/
theorem C8_counterexample_closing_point_radius_jump :
    (Main.KolamDraw.generate_pattern ⟨5, "corners"⟩).length = 101 ∧
    radius ((Main.KolamDraw.generate_pattern ⟨5, "corners"⟩).getD 99 (0, 0)) <
      radius ((Main.KolamDraw.generate_pattern ⟨5, "corners"⟩).getD 100 (0, 0)) := by
  have hN : Main.numSamples 5 = 100 := by norm_num [Main.numSamples]
  constructor
  · simp [Main.KolamDraw.generate_pattern, hN]
  · simp only [Main.KolamDraw.generate_pattern]
    have h100 : ((List.range (Main.numSamples 5)).map
        (Main.samplePoint ⟨5, "corners"⟩) ++ [Main.samplePoint ⟨5, "corners"⟩ 0]).getD
          100 (0, 0) = Main.samplePoint ⟨5, "corners"⟩ 0 := by
      rw [List.getD_eq_getElem?_getD, List.getElem?_append_right (by simp [hN])]
      simp [hN]
    rw [h100, getD_append_left _ _ _ (by simp [hN]),
      getD_range_map (N := Main.numSamples 5) _ (by omega) (0, 0),
      main_corners_radius, main_corners_radius, tSample_zero]
    have h99 : tSample (Main.numSamples 5) 99 = 4 * Real.pi := by
      have := tSample_last (N := 100) (by norm_num)
      rw [hN]
      simpa using this
    rw [h99]
    rw [show (-(0 : ℝ) / (8 + Main.complexity 5 * 2)) = 0 by norm_num, Real.exp_zero]
    apply Real.exp_lt_one_iff.mpr
    have hτ : (0 : ℝ) < 8 + Main.complexity 5 * 2 := by
      have := main_complexity_nonneg 5
      linarith
    have hp : (0 : ℝ) < 4 * Real.pi := by positivity
    exact div_neg_of_neg_of_pos (by linarith) hτ

/-- Claim C3 counterexample: in backend.py the unrecognized family
`"swirl"` does not yield the diamond curve — the first points already
differ (`(1, 0.5)` for the organic fallback versus `(1.5, 0)` for
diamond). -/
theorem C3_counterexample_backend_not_diamond :
    Backend.KolamDraw.generate_pattern ⟨5, "swirl"⟩ ≠
      Backend.KolamDraw.generate_pattern ⟨5, "diamond"⟩ := by
  intro h
  have hh := congrArg List.head? h
  rw [Backend.KolamDraw.generate_pattern, Backend.KolamDraw.generate_pattern,
    head?_range_map _ (backend_numSamples_pos 5),
    head?_range_map _ (backend_numSamples_pos 5)] at hh
  have hp := Option.some.inj hh
  have hx := congrArg Prod.fst hp
  simp only [Backend.samplePoint, Backend.familyPattern, String.reduceEq,
    reduceIte] at hx
  norm_num [tSample_zero] at hx

/-! ## Renderer pipeline lemmas -/

theorem randint_le {low high r v : ℕ} (h : randint low high r = some v) : low ≤ v := by
  unfold randint at h
  split at h
  · have h2 := Option.some.inj h
    omega
  · exact absurd h (by simp)

theorem randint_lt {low high r v : ℕ} (h : randint low high r = some v) : v < high := by
  unfold randint at h
  split at h
  · next hlt =>
    have h2 := Option.some.inj h
    have h3 := Nat.mod_lt r (show 0 < high - low by omega)
    omega
  · exact absurd h (by simp)

/-- Inversion of a successful main.py pipeline run: the image is the
data URI of the encoder payload, `is_one_stroke` is `path_count == 1`,
and `path_count` came from the weighted coin (one-stroke mode) or from
`randint(2, min(ND//3 + 2, 6))`. -/
theorem main_ok_inversion (ND : ℕ) (s : ℚ) (b th : String) (one_stroke : Bool)
    (o : Oracle) (img : String) (pc : ℕ) (os : Bool)
    (h : (Main.generate_kolam_base64 ND s b th one_stroke o).1 = .ok img pc os) :
    img = "data:image/png;base64," ++ o.png ∧ os = (pc == 1) ∧
    ((one_stroke = true ∧ pc = if o.u < 0.7 then 1 else 2) ∨
     (one_stroke = false ∧ randint 2 (min (ND / 3 + 2) 6) o.r = some pc)) := by
  unfold Main.generate_kolam_base64 Main.tryBody at h
  by_cases hf : o.figureFails = true <;> simp only [hf] at h <;> try simp at h
  by_cases hd : o.drawFails = true <;> simp only [hd] at h <;> try simp at h
  by_cases he : o.encodeFails = true <;> simp only [he] at h <;> try simp at h
  cases one_stroke with
  | false =>
    simp only [if_false, Bool.false_eq_true] at h
    cases hr : randint 2 (min (ND / 3 + 2) 6) o.r with
    | none => rw [hr] at h; simp at h
    | some v =>
      rw [hr] at h
      simp only [KolamResult.ok.injEq] at h
      obtain ⟨h1, h2, h3⟩ := h
      subst h1; subst h2; subst h3
      exact ⟨rfl, rfl, Or.inr ⟨rfl, rfl⟩⟩
  | true =>
    simp only [if_true] at h
    simp only [KolamResult.ok.injEq] at h
    obtain ⟨h1, h2, h3⟩ := h
    subst h1; subst h2; subst h3
    exact ⟨rfl, rfl, Or.inl ⟨rfl, rfl⟩⟩

/-- Inversion of a successful backend.py pipeline run. -/
theorem backend_ok_inversion (ND : ℕ) (s : ℚ) (b th : String) (one_stroke : Bool)
    (o : Oracle) (img : String) (pc : ℕ) (os : Bool)
    (h : (Backend.generate_kolam_base64 ND s b th one_stroke o).1 = .ok img pc os) :
    img = "data:image/png;base64," ++ o.png ∧ os = (pc == 1) ∧
    ((one_stroke = true ∧ pc = 1) ∨
     (one_stroke = false ∧ randint 2 5 o.r = some pc)) := by
  unfold Backend.generate_kolam_base64 Backend.tryBody at h
  by_cases hf : o.figureFails = true <;> simp only [hf] at h <;> try simp at h
  by_cases hd : o.drawFails = true <;> simp only [hd] at h <;> try simp at h
  by_cases he : o.encodeFails = true <;> simp only [he] at h <;> try simp at h
  cases one_stroke with
  | false =>
    simp only [if_false, Bool.false_eq_true] at h
    cases hr : randint 2 5 o.r with
    | none => rw [hr] at h; simp at h
    | some v =>
      rw [hr] at h
      simp only [KolamResult.ok.injEq] at h
      obtain ⟨h1, h2, h3⟩ := h
      subst h1; subst h2; subst h3
      exact ⟨rfl, rfl, Or.inr ⟨rfl, rfl⟩⟩
  | true =>
    simp only [if_true] at h
    simp only [KolamResult.ok.injEq] at h
    obtain ⟨h1, h2, h3⟩ := h
    subst h1; subst h2; subst h3
    exact ⟨rfl, rfl, Or.inl ⟨rfl, rfl⟩⟩

/-! ## Claim C4 -/

/-- Claim C4: in both files, a successful call with `oneStroke = true`
reports a `path_count` of 1 or 2 (main.py: 1 exactly when the weighted
coin `np.random.random() < 0.7` comes up heads, 2 otherwise; backend.py:
always 1), and every successful result has `is_one_stroke = true` iff
`path_count == 1`. -/
theorem C4_one_stroke_path_count_and_flag (ND : ℕ) (s : ℚ) (b th : String)
    (one_stroke : Bool) (o : Oracle) (img : String) (pc : ℕ) (os : Bool) :
    ((Main.generate_kolam_base64 ND s b th one_stroke o).1 = .ok img pc os →
      (one_stroke = true → (pc = 1 ∨ pc = 2) ∧ (o.u < 0.7 → pc = 1)) ∧
      (os = true ↔ pc = 1)) ∧
    ((Backend.generate_kolam_base64 ND s b th one_stroke o).1 = .ok img pc os →
      (one_stroke = true → pc = 1) ∧ (os = true ↔ pc = 1)) := by
  constructor
  · intro h
    obtain ⟨h1, h2, h3⟩ := main_ok_inversion ND s b th one_stroke o img pc os h
    constructor
    · intro hos
      rcases h3 with ⟨-, hpc⟩ | ⟨hfalse, -⟩
      · constructor
        · by_cases hu : o.u < 0.7
          · exact Or.inl (by rw [hpc, if_pos hu])
          · exact Or.inr (by rw [hpc, if_neg hu])
        · intro hu; rw [hpc, if_pos hu]
      · rw [hos] at hfalse; exact absurd hfalse (by simp)
    · subst h2; simp
  · intro h
    obtain ⟨h1, h2, h3⟩ := backend_ok_inversion ND s b th one_stroke o img pc os h
    constructor
    · intro hos
      rcases h3 with ⟨-, hpc⟩ | ⟨hfalse, -⟩
      · exact hpc
      · rw [hos] at hfalse; exact absurd hfalse (by simp)
    · subst h2; simp

/-- Claim C4 witness: concrete successful one-stroke calls in both files
(`np.random.random()` drawing `1/2 < 0.7`). -/
theorem C4_witness :
    (Main.generate_kolam_base64 15 0 "diamond" "light" true okOracle).1
      = KolamResult.ok ("data:image/png;base64," ++ "PNG") 1 true ∧
    (Backend.generate_kolam_base64 15 0 "diamond" "light" true okOracle).1
      = KolamResult.ok ("data:image/png;base64," ++ "PNG") 1 true ∧
    ((true = true → (1 = 1 ∨ 1 = 2) ∧ (okOracle.u < 0.7 → 1 = 1)) ∧
      (true = true ↔ 1 = 1)) ∧
    ((true = true → 1 = 1) ∧ (true = true ↔ 1 = 1)) := by
  have heval1 : (Main.generate_kolam_base64 15 0 "diamond" "light" true okOracle).1
      = KolamResult.ok ("data:image/png;base64," ++ "PNG") 1 true := by
    norm_num [Main.generate_kolam_base64, Main.tryBody, okOracle, randint]
  have heval2 : (Backend.generate_kolam_base64 15 0 "diamond" "light" true okOracle).1
      = KolamResult.ok ("data:image/png;base64," ++ "PNG") 1 true := by
    norm_num [Backend.generate_kolam_base64, Backend.tryBody, okOracle, randint]
  have h := C4_one_stroke_path_count_and_flag 15 0 "diamond" "light" true okOracle
    ("data:image/png;base64," ++ "PNG") 1 true
  exact ⟨heval1, heval2, h.1 heval1, h.2 heval2⟩

/-! ## Claim C5 -/

/-- Claim C5: with `oneStroke = false`, every successful call reports
`path_count ≥ 2`, in both files, for every grid size and oracle. -/
theorem C5_not_one_stroke_path_count_ge_two (ND : ℕ) (s : ℚ) (b th : String)
    (o : Oracle) (img1 img2 : String) (pc1 pc2 : ℕ) (os1 os2 : Bool) :
    ((Main.generate_kolam_base64 ND s b th false o).1 = .ok img1 pc1 os1 →
      2 ≤ pc1) ∧
    ((Backend.generate_kolam_base64 ND s b th false o).1 = .ok img2 pc2 os2 →
      2 ≤ pc2) := by
  constructor
  · intro h
    obtain ⟨-, -, h3⟩ := main_ok_inversion ND s b th false o img1 pc1 os1 h
    rcases h3 with ⟨htrue, -⟩ | ⟨-, hr⟩
    · exact absurd htrue (by simp)
    · exact randint_le hr
  · intro h
    obtain ⟨-, -, h3⟩ := backend_ok_inversion ND s b th false o img2 pc2 os2 h
    rcases h3 with ⟨htrue, -⟩ | ⟨-, hr⟩
    · exact absurd htrue (by simp)
    · exact randint_le hr

/-- Claim C5 witness: concrete successful non-one-stroke calls in both
files (randint seed 0, so `path_count = 2`). -/
theorem C5_witness :
    (Main.generate_kolam_base64 15 0 "diamond" "light" false okOracle).1
      = KolamResult.ok ("data:image/png;base64," ++ "PNG") 2 false ∧
    (Backend.generate_kolam_base64 15 0 "diamond" "light" false okOracle).1
      = KolamResult.ok ("data:image/png;base64," ++ "PNG") 2 false ∧
    2 ≤ 2 ∧ 2 ≤ 2 := by
  have heval1 : (Main.generate_kolam_base64 15 0 "diamond" "light" false okOracle).1
      = KolamResult.ok ("data:image/png;base64," ++ "PNG") 2 false := by
    norm_num [Main.generate_kolam_base64, Main.tryBody, okOracle, randint]
  have heval2 : (Backend.generate_kolam_base64 15 0 "diamond" "light" false okOracle).1
      = KolamResult.ok ("data:image/png;base64," ++ "PNG") 2 false := by
    norm_num [Backend.generate_kolam_base64, Backend.tryBody, okOracle, randint]
  have h := C5_not_one_stroke_path_count_ge_two 15 0 "diamond" "light" okOracle
    ("data:image/png;base64," ++ "PNG") ("data:image/png;base64," ++ "PNG")
    2 2 false false
  exact ⟨heval1, heval2, h.1 heval1, h.2 heval2⟩

/-! ## Claim C6 -/

/-- Claim C6 (code bug): `plt.close(fig)` sits inside the `try` block
with no `finally`, so when the encode step (`plt.savefig`) raises, both
files return from the `except` handler with the figure still open (one
figure leaked), while a fully successful run does close it.  This
contradicts the release-always discipline the claim states. -/
theorem C6_figure_leaked_on_encode_failure :
    (Main.generate_kolam_base64 15 (35 / 100) "diamond" "light" false
      encodeFailOracle).1.success = false ∧
    (Main.generate_kolam_base64 15 (35 / 100) "diamond" "light" false
      encodeFailOracle).2 = 1 ∧
    (Backend.generate_kolam_base64 15 (35 / 100) "diamond" "light" false
      encodeFailOracle).2 = 1 ∧
    (Main.generate_kolam_base64 15 (35 / 100) "diamond" "light" false
      okOracle).2 = 0 ∧
    (Backend.generate_kolam_base64 15 (35 / 100) "diamond" "light" false
      okOracle).2 = 0 := by
  refine ⟨?_, ?_, ?_, ?_, ?_⟩ <;>
    norm_num [Main.generate_kolam_base64, Main.tryBody,
      Backend.generate_kolam_base64, Backend.tryBody, okOracle,
      encodeFailOracle, randint, KolamResult.success]

/-! ## Claim C7 -/

/-- Every error message raised inside main.py's `try` body is non-empty. -/
theorem main_tryBody_error_nonempty (ND : ℕ) (one_stroke : Bool) (o : Oracle)
    (e : String) (n : ℕ) (h : Main.tryBody ND one_stroke o = (.error e, n)) :
    e ≠ "" := by
  unfold Main.tryBody at h
  by_cases hf : o.figureFails = true
  · rw [if_pos hf, Prod.mk.injEq] at h
    have h1 := h.1
    rw [Except.error.injEq] at h1
    rw [← h1]; decide
  rw [if_neg hf] at h
  by_cases hd : o.drawFails = true
  · rw [if_pos hd, Prod.mk.injEq] at h
    have h1 := h.1
    rw [Except.error.injEq] at h1
    rw [← h1]; decide
  rw [if_neg hd] at h
  by_cases he : o.encodeFails = true
  · rw [if_pos he, Prod.mk.injEq] at h
    have h1 := h.1
    rw [Except.error.injEq] at h1
    rw [← h1]; decide
  rw [if_neg he] at h
  cases hx : (if one_stroke then some (if o.u < 0.7 then 1 else 2)
      else randint 2 (min (ND / 3 + 2) 6) o.r) with
  | some v =>
    rw [hx, Prod.mk.injEq] at h
    exact absurd h.1 (by simp)
  | none =>
    rw [hx, Prod.mk.injEq] at h
    have h1 := h.1
    rw [Except.error.injEq] at h1
    rw [← h1]; decide

/-- Every error message raised inside backend.py's `try` body is non-empty. -/
theorem backend_tryBody_error_nonempty (one_stroke : Bool) (o : Oracle)
    (e : String) (n : ℕ) (h : Backend.tryBody one_stroke o = (.error e, n)) :
    e ≠ "" := by
  unfold Backend.tryBody at h
  by_cases hf : o.figureFails = true
  · rw [if_pos hf, Prod.mk.injEq] at h
    have h1 := h.1
    rw [Except.error.injEq] at h1
    rw [← h1]; decide
  rw [if_neg hf] at h
  by_cases hd : o.drawFails = true
  · rw [if_pos hd, Prod.mk.injEq] at h
    have h1 := h.1
    rw [Except.error.injEq] at h1
    rw [← h1]; decide
  rw [if_neg hd] at h
  by_cases he : o.encodeFails = true
  · rw [if_pos he, Prod.mk.injEq] at h
    have h1 := h.1
    rw [Except.error.injEq] at h1
    rw [← h1]; decide
  rw [if_neg he] at h
  cases hx : (if one_stroke then some 1 else randint 2 5 o.r) with
  | some v =>
    rw [hx, Prod.mk.injEq] at h
    exact absurd h.1 (by simp)
  | none =>
    rw [hx, Prod.mk.injEq] at h
    have h1 := h.1
    rw [Except.error.injEq] at h1
    rw [← h1]; decide

/-- main.py's result is either a success or the conversion of the raised
exception. -/
theorem main_result_shape (ND : ℕ) (s : ℚ) (b th : String)
    (one_stroke : Bool) (o : Oracle) :
    (Main.generate_kolam_base64 ND s b th one_stroke o).1.success = true ∨
    ∃ e n, Main.tryBody ND one_stroke o = (.error e, n) ∧
      (Main.generate_kolam_base64 ND s b th one_stroke o).1 = .err e := by
  unfold Main.generate_kolam_base64
  rcases ht : Main.tryBody ND one_stroke o with ⟨fst, n⟩
  cases fst with
  | ok v =>
    rcases v with ⟨a, b2, c⟩
    exact Or.inl rfl
  | error e => exact Or.inr ⟨e, n, rfl, rfl⟩

/-- backend.py's result is either a success or the conversion of the
raised exception. -/
theorem backend_result_shape (ND : ℕ) (s : ℚ) (b th : String)
    (one_stroke : Bool) (o : Oracle) :
    (Backend.generate_kolam_base64 ND s b th one_stroke o).1.success = true ∨
    ∃ e n, Backend.tryBody one_stroke o = (.error e, n) ∧
      (Backend.generate_kolam_base64 ND s b th one_stroke o).1 = .err e := by
  unfold Backend.generate_kolam_base64
  rcases ht : Backend.tryBody one_stroke o with ⟨fst, n⟩
  cases fst with
  | ok v =>
    rcases v with ⟨a, b2, c⟩
    exact Or.inl rfl
  | error e => exact Or.inr ⟨e, n, rfl, rfl⟩

/-- Claim C7: neither pipeline propagates an exception across its
boundary: every exception raised in the `try` body is converted by the
`except` handler into the tagged failure dictionary carrying the
exception's message, and every returned result is either a success or a
tagged failure with a non-empty, human-readable message. -/
theorem C7_no_uncaught_fault (ND : ℕ) (s : ℚ) (b th : String)
    (one_stroke : Bool) (o : Oracle) :
    (∀ e n, Main.tryBody ND one_stroke o = (.error e, n) →
      (Main.generate_kolam_base64 ND s b th one_stroke o).1 = .err e) ∧
    (∀ e n, Backend.tryBody one_stroke o = (.error e, n) →
      (Backend.generate_kolam_base64 ND s b th one_stroke o).1 = .err e) ∧
    ((Main.generate_kolam_base64 ND s b th one_stroke o).1.success = true ∨
      ∃ m, (Main.generate_kolam_base64 ND s b th one_stroke o).1 = .err m ∧
        m ≠ "") ∧
    ((Backend.generate_kolam_base64 ND s b th one_stroke o).1.success = true ∨
      ∃ m, (Backend.generate_kolam_base64 ND s b th one_stroke o).1 = .err m ∧
        m ≠ "") := by
  refine ⟨?_, ?_, ?_, ?_⟩
  · intro e n h
    unfold Main.generate_kolam_base64
    rw [h]
  · intro e n h
    unfold Backend.generate_kolam_base64
    rw [h]
  · rcases main_result_shape ND s b th one_stroke o with hs | ⟨e, n, ht, hr⟩
    · exact Or.inl hs
    · exact Or.inr ⟨e, hr, main_tryBody_error_nonempty ND one_stroke o e n ht⟩
  · rcases backend_result_shape ND s b th one_stroke o with hs | ⟨e, n, ht, hr⟩
    · exact Or.inl hs
    · exact Or.inr ⟨e, hr, backend_tryBody_error_nonempty one_stroke o e n ht⟩

/-- Claim C7 witness: a failing encode step is returned as the tagged
failure carrying its message, in both files. -/
theorem C7_witness :
    (Main.generate_kolam_base64 15 0 "diamond" "light" false
      encodeFailOracle).1 = KolamResult.err "savefig failed" ∧
    (Backend.generate_kolam_base64 15 0 "diamond" "light" false
      encodeFailOracle).1 = KolamResult.err "savefig failed" := by
  have h := C7_no_uncaught_fault 15 0 "diamond" "light" false encodeFailOracle
  exact ⟨h.1 "savefig failed" 1 (by norm_num [Main.tryBody, encodeFailOracle]),
    h.2.1 "savefig failed" 1 (by norm_num [Backend.tryBody, encodeFailOracle])⟩

/-! ## Claim C9 -/

/-- Claim C9: for gridSize 15, diamond family, complexityBias 0.35, light
theme, oneStroke false, whenever the external figure/draw/encode steps do
not raise, both files return the success dictionary whose image is the
non-empty data URI `data:image/png;base64,` followed by the encoder
payload, with a path count in [2, 6] and `is_one_stroke = false`. -/
theorem C9_example_scenario (o : Oracle) (hf : o.figureFails = false)
    (hd : o.drawFails = false) (he : o.encodeFails = false) :
    (∃ pc, (Main.generate_kolam_base64 15 (35 / 100) "diamond" "light" false o).1
        = .ok ("data:image/png;base64," ++ o.png) pc false ∧
      2 ≤ pc ∧ pc ≤ 6 ∧ ("data:image/png;base64," ++ o.png) ≠ "") ∧
    (∃ pc, (Backend.generate_kolam_base64 15 (35 / 100) "diamond" "light" false o).1
        = .ok ("data:image/png;base64," ++ o.png) pc false ∧
      2 ≤ pc ∧ pc ≤ 6 ∧ ("data:image/png;base64," ++ o.png) ≠ "") := by
  have huri : ("data:image/png;base64," ++ o.png) ≠ "" := by
    intro hcontra
    have hl := congrArg String.length hcontra
    rw [String.length_append] at hl
    have h22 : ("data:image/png;base64," : String).length = 22 := rfl
    have h0 : ("" : String).length = 0 := rfl
    rw [h22, h0] at hl
    omega
  constructor
  · refine ⟨2 + o.r % 4, ?_, by omega, by omega, huri⟩
    have hbeq : (2 + o.r % 4 == 1) = false := by simp; omega
    unfold Main.generate_kolam_base64 Main.tryBody
    simp only [hf, Bool.false_eq_true, if_false, hd, he]
    norm_num [randint, hbeq]
  · refine ⟨2 + o.r % 3, ?_, by omega, by omega, huri⟩
    have hbeq : (2 + o.r % 3 == 1) = false := by simp; omega
    unfold Backend.generate_kolam_base64 Backend.tryBody
    simp only [hf, Bool.false_eq_true, if_false, hd, he]
    norm_num [randint, hbeq]

/-- Claim C9 witness: the scenario run with the concrete all-success
oracle (randint seed 0). -/
theorem C9_witness :
    okOracle.figureFails = false ∧ okOracle.drawFails = false ∧
    okOracle.encodeFails = false ∧
    ((∃ pc, (Main.generate_kolam_base64 15 (35 / 100) "diamond" "light" false
          okOracle).1
        = .ok ("data:image/png;base64," ++ okOracle.png) pc false ∧
      2 ≤ pc ∧ pc ≤ 6 ∧ ("data:image/png;base64," ++ okOracle.png) ≠ "") ∧
    (∃ pc, (Backend.generate_kolam_base64 15 (35 / 100) "diamond" "light" false
          okOracle).1
        = .ok ("data:image/png;base64," ++ okOracle.png) pc false ∧
      2 ≤ pc ∧ pc ≤ 6 ∧ ("data:image/png;base64," ++ okOracle.png) ≠ "")) :=
  ⟨rfl, rfl, rfl, C9_example_scenario okOracle rfl rfl rfl⟩

end Kolam
